import Mathlib

/-!
Verification development for the returns-intake application.

The definitions below are shallow embeddings of the TypeScript source:
`src/lib/validation.ts` (input validators), `src/components/ui/upload.ts`
(upload orchestration and the record reconciler `insertOverstockData` /
`insertDamagesData`), `src/components/ui/barcode-reader.tsx` (ISBN
validation and extraction) and the submit/rollback coordination in
`src/components/ui/form-data.tsx` / `src/components/ui/image-panel.tsx`.

JavaScript conventions that matter for faithfulness are modelled
explicitly: `a || b` on strings falls back on the empty string
(`jsOrStr`), truthiness of an optional string (`jsTruthyOpt`), and
`parseInt(s, 10)` (`jsParseInt`).
-/

namespace ReturnsApp

/-- JS `a || b` where `a : string | undefined`: the fallback is taken when
`a` is `undefined` or the empty string. -/
def jsOrStr (a : Option String) (b : String) : String :=
  match a with
  | some s => if s = "" then b else s
  | none => b

/-- JS truthiness of an optional string value (`undefined`, `null` and `""`
are falsy). -/
def jsTruthyOpt (a : Option String) : Bool :=
  match a with
  | some s => s ≠ ""
  | none => false

/-- JS `String.prototype.trim()`: strip leading and trailing whitespace. -/
def jsTrim (s : String) : String :=
  String.mk (((s.data.dropWhile Char.isWhitespace).reverse.dropWhile Char.isWhitespace).reverse)

/-- JS `toUpperCase()` (ASCII range, the only one exercised here). -/
def strToUpper (s : String) : String := String.mk (s.data.map Char.toUpper)

/-- JS `toLowerCase()` (ASCII range, the only one exercised here). -/
def strToLower (s : String) : String := String.mk (s.data.map Char.toLower)

@[simp] theorem jsOrStr_some_ne (s b : String) (h : s ≠ "") : jsOrStr (some s) b = s := by
  simp [jsOrStr, h]

@[simp] theorem jsOrStr_none (b : String) : jsOrStr none b = b := rfl

theorem jsOrStr_some_empty_default (s : String) : jsOrStr (some s) "" = s := by
  by_cases h : s = "" <;> simp [jsOrStr, h]

/-! ## Image-reference merge (upload.ts, lines 332-338 and 486-492)

```js
const allImages = [...existingImages];
imageUrls.forEach(url => {
  if (!allImages.includes(url)) {
    allImages.push(url);
  }
});
```
-/

/-- The duplicate-avoiding append performed when a record already exists for
the invoice number. -/
def mergeImages (existingImages : List String) (imageUrls : List String) : List String :=
  imageUrls.foldl (fun allImages url => if url ∈ allImages then allImages else allImages ++ [url]) existingImages

theorem mem_mergeImages_of_mem_left (R : List String) :
    ∀ (E : List String) (a : String), a ∈ E → a ∈ mergeImages E R := by
  induction R with
  | nil => intro E a h; exact h
  | cons u R ih =>
      intro E a h
      show a ∈ mergeImages (if u ∈ E then E else E ++ [u]) R
      by_cases hu : u ∈ E
      · simpa [hu] using ih E a h
      · simpa [hu] using ih (E ++ [u]) a (List.mem_append_left _ h)

theorem mem_mergeImages_of_mem_right (R : List String) :
    ∀ (E : List String) (a : String), a ∈ R → a ∈ mergeImages E R := by
  induction R with
  | nil => intro E a h; cases h
  | cons u R ih =>
      intro E a h
      show a ∈ mergeImages (if u ∈ E then E else E ++ [u]) R
      rcases List.mem_cons.mp h with rfl | hR
      · by_cases hu : a ∈ E
        · simpa [hu] using mem_mergeImages_of_mem_left R E a hu
        · simpa [hu] using
            mem_mergeImages_of_mem_left R (E ++ [a]) a (List.mem_append_right _ (List.mem_singleton.mpr rfl))
      · by_cases hu : u ∈ E <;> simp [hu, ih _ a hR]

theorem mergeImages_eq_of_subset (R : List String) :
    ∀ (E : List String), (∀ a ∈ R, a ∈ E) → mergeImages E R = E := by
  induction R with
  | nil => intro E _; rfl
  | cons u R ih =>
      intro E h
      have hu : u ∈ E := h u (List.mem_cons_self u R)
      show mergeImages (if u ∈ E then E else E ++ [u]) R = E
      simpa [hu] using ih E (fun a ha => h a (List.mem_cons_of_mem _ ha))

theorem mergeImages_idem (E R : List String) :
    mergeImages (mergeImages E R) R = mergeImages E R :=
  mergeImages_eq_of_subset R (mergeImages E R) (fun a ha => mem_mergeImages_of_mem_right R E a ha)

theorem mergeImages_nodup (R : List String) :
    ∀ (E : List String), E.Nodup → (mergeImages E R).Nodup := by
  induction R with
  | nil => intro E h; exact h
  | cons u R ih =>
      intro E h
      show (mergeImages (if u ∈ E then E else E ++ [u]) R).Nodup
      by_cases hu : u ∈ E
      · simpa [hu] using ih E h
      · have : (E ++ [u]).Nodup := by simp [List.nodup_append, h, hu]
        simpa [hu] using ih (E ++ [u]) this

theorem mergeImages_eq_append_filter (R : List String) :
    ∀ (E : List String), R.Nodup → mergeImages E R = E ++ R.filter (fun u => u ∉ E) := by
  induction R with
  | nil => intro E _; simp [mergeImages]
  | cons u R ih =>
      intro E h
      have hnot : u ∉ R := (List.nodup_cons.mp h).1
      have hR : R.Nodup := (List.nodup_cons.mp h).2
      show mergeImages (if u ∈ E then E else E ++ [u]) R = E ++ List.filter (fun u => u ∉ E) (u :: R)
      by_cases hu : u ∈ E
      · simpa [hu, List.filter_cons] using ih E hR
      · have hfilter : R.filter (fun a => a ∉ E ++ [u]) = R.filter (fun a => a ∉ E) := by
          refine List.filter_congr (fun a ha => ?_)
          have hne : a ≠ u := fun heq => hnot (heq ▸ ha)
          simp [List.mem_append, hne]
        have := ih (E ++ [u]) hR
        simp only [hu, if_false, this, hfilter, List.filter_cons]
        simp [hu, List.append_assoc]

/-! ## Warehouse-notes merge (upload.ts, lines 340-348 and 494-502)

```js
let updatedWarehouseNotes = existingData.warehouse_notes || "";
if (sanitizedReason) {
  if (updatedWarehouseNotes) {
    updatedWarehouseNotes = `...existing\n...reason`;
  } else {
    updatedWarehouseNotes = sanitizedReason;
  }
}
```
-/

/-- Newline-joined append of a new sanitized reason onto the existing
warehouse notes. -/
def mergeNotes (existingNotes : String) (sanitizedReason : String) : String :=
  if sanitizedReason ≠ "" then
    if existingNotes ≠ "" then existingNotes ++ "\n" ++ sanitizedReason
    else sanitizedReason
  else existingNotes

/-! ## Input validators (src/lib/validation.ts) -/

/-- `ValidationResult` from validation.ts. -/
structure VRes where
  valid : Bool
  error : Option String
deriving DecidableEq

/-- `ValidationResultWithValue<string>` from validation.ts. -/
structure VResS where
  valid : Bool
  error : Option String
  sanitized : Option String
deriving DecidableEq

/-- `ValidationResultWithNumber` from validation.ts. -/
structure VResN where
  valid : Bool
  error : Option String
  number : Option Int
deriving DecidableEq

/-- `validateFileSize` (validation.ts line 29): ceiling is `5 * 1024 * 1024`. -/
def validateFileSize (size : Nat) : VRes :=
  if size > 5 * 1024 * 1024 then
    ⟨false, some "File size exceeds 5MB limit"⟩
  else ⟨true, none⟩

/-- `ALLOWED_IMAGE_TYPES` (validation.ts line 6). -/
def allowedImageTypes : List String :=
  ["image/jpeg", "image/jpg", "image/png", "image/webp", "image/gif"]

/-- `validateFileType` (validation.ts line 39). -/
def validateFileType (mimeType : String) : VRes :=
  if !(allowedImageTypes.contains (strToLower mimeType)) then
    ⟨false, some "Only image files (JPEG, PNG, WebP, GIF) are allowed"⟩
  else ⟨true, none⟩

/-- `validateImageContent` (validation.ts line 49): the blob's first four
bytes (fewer when the blob is shorter) checked against the JPEG / PNG /
GIF / WebP magic numbers.  An out-of-range JS index reads `undefined`, so
every comparison on a missing byte is false: modelled with `Option`. -/
def validateImageContent (bytes : List Nat) : VRes :=
  let isJPEG := bytes[0]? == some 0xFF && bytes[1]? == some 0xD8
  let isPNG := bytes[0]? == some 0x89 && bytes[1]? == some 0x50 &&
    bytes[2]? == some 0x4E && bytes[3]? == some 0x47
  let isGIF := bytes[0]? == some 0x47 && bytes[1]? == some 0x49 && bytes[2]? == some 0x46
  let isWebP := bytes[0]? == some 0x52 && bytes[1]? == some 0x49 &&
    bytes[2]? == some 0x46 && bytes[3]? == some 0x46
  if !isJPEG && !isPNG && !isGIF && !isWebP then
    ⟨false, some "Invalid image file format"⟩
  else ⟨true, none⟩

/-- ASCII uppercase letter, the `[A-Z]` character class. -/
def isUpperAlpha (c : Char) : Bool := 'A' ≤ c && c ≤ 'Z'

/-- The regex `^[A-Z]{3}[0-9]{3}$` from `validateAccountNumber`. -/
def isThreeLettersThreeDigits (s : String) : Bool :=
  match s.data with
  | [a, b, c, d, e, f] =>
      isUpperAlpha a && isUpperAlpha b && isUpperAlpha c &&
      d.isDigit && e.isDigit && f.isDigit
  | _ => false

/-- Character class `[0-9A-Z\-_]` kept by the non-strict account sanitizer. -/
def keepAccountChar (c : Char) : Bool := c.isDigit || isUpperAlpha c || c == '-' || c == '_'

/-- Character class `[0-9A-Za-z\-_]` kept by the non-strict invoice /
R-number sanitizers. -/
def keepAlnumChar (c : Char) : Bool := c.isAlphanum || c == '-' || c == '_'

/-- `validateAccountNumber` (validation.ts line 70). -/
def validateAccountNumber (accountNumber : String) (strictFormat : Bool) : VResS :=
  if jsTrim accountNumber = "" then
    ⟨false, some "Account number is required", none⟩
  else
    let upper := strToUpper (jsTrim accountNumber)
    if strictFormat then
      if !(isThreeLettersThreeDigits upper) then
        ⟨false, some "Account number must be 3 letters followed by 3 numbers (e.g., ABC123)", none⟩
      else ⟨true, none, some upper⟩
    else
      if upper.length > 50 then
        ⟨false, some "Account number must be less than 50 characters", none⟩
      else
        let sanitized := String.mk (upper.data.filter keepAccountChar)
        if sanitized = "" then
          ⟨false, some "Account number contains invalid characters", none⟩
        else ⟨true, none, some sanitized⟩

/-- `validateInvoiceNumber` (validation.ts line 106). -/
def validateInvoiceNumber (invoiceNumber : String) (strictFormat : Bool) : VResS :=
  if jsTrim invoiceNumber = "" then
    ⟨false, some "Invoice number is required", none⟩
  else if strictFormat then
    let digitsOnly := String.mk ((jsTrim invoiceNumber).data.filter Char.isDigit)
    if digitsOnly.length ≠ 8 then
      ⟨false, some "Invoice number must be exactly 8 digits", none⟩
    else ⟨true, none, some digitsOnly⟩
  else
    if invoiceNumber.length > 50 then
      ⟨false, some "Invoice number must be less than 50 characters", none⟩
    else
      let sanitized := String.mk ((jsTrim invoiceNumber).data.filter keepAlnumChar)
      if sanitized = "" then
        ⟨false, some "Invoice number contains invalid characters", none⟩
      else ⟨true, none, some sanitized⟩

/-- `validateRNumber` (validation.ts line 139). -/
def validateRNumber (rNumber : String) (strictFormat : Bool) : VResS :=
  if jsTrim rNumber = "" then
    ⟨false, some "R number is required", none⟩
  else if strictFormat then
    let digitsOnly := String.mk ((jsTrim rNumber).data.filter Char.isDigit)
    if digitsOnly.length ≠ 8 then
      ⟨false, some "R number must be exactly 8 digits", none⟩
    else ⟨true, none, some digitsOnly⟩
  else
    if rNumber.length > 50 then
      ⟨false, some "R number must be less than 50 characters", none⟩
    else
      let sanitized := String.mk ((jsTrim rNumber).data.filter keepAlnumChar)
      if sanitized = "" then
        ⟨false, some "R number contains invalid characters", none⟩
      else ⟨true, none, some sanitized⟩

/-- `sanitizeTextInput` (validation.ts line 171); the source's default
`maxLength` is 1000 and is passed explicitly at every call site here. -/
def sanitizeTextInput (text : String) (maxLength : Nat) : VResS :=
  if text.length > maxLength then
    ⟨false, some ("Text must be less than " ++ toString maxLength ++ " characters"), none⟩
  else
    ⟨true, none, some (jsTrim (String.mk (text.data.filter (fun c => !(c == '<' || c == '>')))))⟩

/-- JS `parseInt(s, 10)`: skip leading whitespace, optional sign, then the
longest run of decimal digits; `NaN` (here `none`) when no digit follows. -/
def jsParseInt (s : String) : Option Int :=
  let cs := s.data.dropWhile Char.isWhitespace
  let signSplit : Bool × List Char :=
    match cs with
    | '-' :: t => (true, t)
    | '+' :: t => (false, t)
    | _ => (false, cs)
  let digits := signSplit.2.takeWhile Char.isDigit
  if digits.isEmpty then none
  else
    let n : Nat := digits.foldl (fun acc c => acc * 10 + (c.toNat - '0'.toNat)) 0
    some (if signSplit.1 then -(n : Int) else (n : Int))

/-- `validateNumericString` (validation.ts line 185). -/
def validateNumericString (value : String) : VResN :=
  if jsTrim value = "" then
    ⟨false, some "Value is required", none⟩
  else
    match jsParseInt value with
    | none => ⟨false, some "Value must be a valid number", none⟩
    | some n => ⟨true, none, some n⟩

/-! ## Upload orchestrator (src/components/ui/upload.ts, lines 60-168)

A `GalleryItem` carries the blob's size, declared MIME type and leading
bytes; the effectful tail of `uploadGalleryItem` (bucket resolution,
date-partitioned path construction, the Supabase `upload` call and
`getPublicUrl`) is abstracted as the `performUpload` parameter, invoked
only after the three synchronous validation gates pass. -/

structure GalleryItem where
  id : String
  isbn : Option String
  fileName : Option String
  blobSize : Nat
  blobType : String
  blobBytes : List Nat
  invoiceNumber : Option String
deriving DecidableEq

/-- The value returned by a successful `uploadGalleryItem` call. -/
structure UploadOk where
  bucket : String
  destPath : String
  publicUrl : Option String
  fileName : String
deriving DecidableEq

/-- One element of the `results` array built by `uploadGalleryItems`. -/
structure UploadResultE where
  itemId : Option String
  bucket : Option String
  destPath : Option String
  publicUrl : Option String
  fileName : Option String
  error : Option String
deriving DecidableEq

/-- `uploadGalleryItem` (upload.ts line 60): the three validation gates run
in order size, declared type, content signature; only an item passing all
three reaches `performUpload`.  A content-validation failure is rethrown by
the surrounding `try/catch` as "Failed to validate image file". -/
def uploadGalleryItem (performUpload : GalleryItem → Except String UploadOk)
    (item : GalleryItem) : Except String UploadOk :=
  if !(validateFileSize item.blobSize).valid then
    .error (jsOrStr (validateFileSize item.blobSize).error "File validation failed")
  else if !(validateFileType item.blobType).valid then
    .error (jsOrStr (validateFileType item.blobType).error "File type validation failed")
  else if !(validateImageContent item.blobBytes).valid then
    .error "Failed to validate image file"
  else performUpload item

/-- The per-item record pushed into `results` by the loop body of
`uploadGalleryItems` (upload.ts lines 157-165). -/
def uploadResultOf (performUpload : GalleryItem → Except String UploadOk)
    (it : GalleryItem) : UploadResultE :=
  match uploadGalleryItem performUpload it with
  | .ok res =>
      { itemId := some it.id, bucket := some res.bucket, destPath := some res.destPath,
        publicUrl := res.publicUrl, fileName := some res.fileName, error := none }
  | .error err =>
      { itemId := some it.id, bucket := none, destPath := none,
        publicUrl := none, fileName := none, error := some err }

/-- `uploadGalleryItems` (upload.ts line 148): a sequential `for` loop whose
`try/catch` body records each item's outcome independently. -/
def uploadGalleryItems (performUpload : GalleryItem → Except String UploadOk)
    (items : List GalleryItem) : List UploadResultE :=
  items.map (uploadResultOf performUpload)

/-! ## Record model and reconciler (upload.ts, lines 244-557)

A row of the `returns-app` table. The Supabase store is modelled as a list
of rows; the lookup response (`.select(...).eq(...).single()`) and a write
fault from the subsequent `update`/`insert` are injected as parameters so
that every error path of the source is reachable. -/

structure ReturnRecord where
  invoiceNumber : Int
  rNumber : Option Int
  accountNumber : String
  images : List String
  created_at : String
  sales_notes : String
  warehouse_notes : String
  status : Option String
  action : Option String
  team : Option String
deriving DecidableEq

/-- The columns read back by the existence check:
`.select("images, warehouse_notes")`.  `images` may be SQL `null`
(modelled `none`); the source additionally tolerates a legacy
JSON-string encoding of `images`, which this app never writes and is not
modelled. -/
structure RecordView where
  images : Option (List String)
  warehouse_notes : Option String
deriving DecidableEq

/-- The `{ data, error }` pair returned by the single-row lookup;
`errorCode` is the Supabase/PostgREST error code (`"PGRST116"` = row not
found). -/
structure LookupResp where
  data : Option RecordView
  errorCode : Option String
deriving DecidableEq

/-- `if (checkError && checkError.code !== "PGRST116") throw ...`. -/
def lookupFailed (resp : LookupResp) : Bool :=
  match resp.errorCode with
  | some code => code ≠ "PGRST116"
  | none => false

/-- `existingImages` parsing (upload.ts lines 319-330) restricted to the
array/null cases (see `RecordView`). -/
def existingImagesOf (view : RecordView) : List String :=
  view.images.getD []

/-- `uploadResults.filter((r) => !r.error && r.publicUrl).map((r) => r.publicUrl!)`. -/
def successfulUrls (uploadResults : List UploadResultE) : List String :=
  uploadResults.filterMap (fun r =>
    match r.publicUrl with
    | some u => if r.error = none ∧ u ≠ "" then some u else none
    | none => none)

/-- The sanitized reason computed before the lookup (upload.ts lines
291-298): starts empty, replaced only when a truthy reason sanitizes
successfully; note the `reasonValidation.sanitized || reason` fallback. -/
def computeSanitizedReason (reason : Option String) : String :=
  match reason with
  | none => ""
  | some s =>
      if s = "" then ""
      else
        let reasonValidation := sanitizeTextInput s 1000
        if reasonValidation.valid then jsOrStr reasonValidation.sanitized s else ""

/-- The store-side effect of
`.update({ images: allImages, warehouse_notes: updatedWarehouseNotes }).eq("InvoiceNumber", invoiceNum)`:
only the two supplied columns change, and only on matching rows. -/
def applyMergeUpdate (store : List ReturnRecord) (invoiceNum : Int)
    (allImages : List String) (updatedWarehouseNotes : String) : List ReturnRecord :=
  store.map (fun rec =>
    if rec.invoiceNumber = invoiceNum then
      { rec with images := allImages, warehouse_notes := updatedWarehouseNotes }
    else rec)

/-- Error message used by both merge paths for a permission failure. -/
def permissionMsg : String :=
  "You do not have permission to perform this action. Please contact your administrator."

/-- `insertOverstockData` (upload.ts line 244).  `resp` is the lookup
response, `writeFault` an injected error code for the write that follows
(`none` = the write succeeds), `nowIso` the `new Date().toISOString()`
value. -/
def insertOverstockData (resp : LookupResp) (writeFault : Option String) (nowIso : String)
    (store : List ReturnRecord) (invoiceNumber accountNumber returnsNumber : String)
    (uploadResults : List UploadResultE) (reason : Option String) :
    Except String (List ReturnRecord) :=
  let invoiceValidation := validateInvoiceNumber invoiceNumber false
  if !invoiceValidation.valid then
    .error (jsOrStr invoiceValidation.error "Invalid invoice number")
  else
  let accountValidation := validateAccountNumber accountNumber false
  if !accountValidation.valid then
    .error (jsOrStr accountValidation.error "Invalid account number")
  else
  let rNumberValidation := validateRNumber returnsNumber false
  if !rNumberValidation.valid then
    .error (jsOrStr rNumberValidation.error "Invalid R number")
  else
  let imageUrls := successfulUrls uploadResults
  if imageUrls.isEmpty then
    .error "No successful uploads to insert"
  else
  let invoiceNumValidation := validateNumericString (jsOrStr invoiceValidation.sanitized invoiceNumber)
  let rNumValidation := validateNumericString (jsOrStr rNumberValidation.sanitized returnsNumber)
  match invoiceNumValidation.number, rNumValidation.number with
  | some invoiceNum, some rNum =>
    let sanitizedReason := computeSanitizedReason reason
    if lookupFailed resp then
      .error "Failed to check for existing record. Please try again."
    else
      match resp.data with
      | some existingData =>
          let existingImages := existingImagesOf existingData
          let allImages := mergeImages existingImages imageUrls
          let updatedWarehouseNotes :=
            mergeNotes (jsOrStr existingData.warehouse_notes "") sanitizedReason
          match writeFault with
          | some code =>
              .error (if code = "42501" then permissionMsg
                      else "Failed to update existing record. Please try again.")
          | none => .ok (applyMergeUpdate store invoiceNum allImages updatedWarehouseNotes)
      | none =>
          let rowData : ReturnRecord :=
            { invoiceNumber := invoiceNum, rNumber := some rNum,
              accountNumber := jsOrStr accountValidation.sanitized accountNumber,
              images := imageUrls, created_at := nowIso, sales_notes := "",
              warehouse_notes := sanitizedReason, status := some "Logged",
              action := none, team := none }
          match writeFault with
          | some code =>
              .error (if code = "42501" then permissionMsg
                      else "Failed to save data. Please try again.")
          | none => .ok (store ++ [rowData])
  | _, _ => .error "Invoice number and R number must be valid numbers"

/-- `insertDamagesData` (upload.ts line 406): as `insertOverstockData` but
with no returns number (`rNumber` is inserted as `null`). -/
def insertDamagesData (resp : LookupResp) (writeFault : Option String) (nowIso : String)
    (store : List ReturnRecord) (invoiceNumber accountNumber : String)
    (uploadResults : List UploadResultE) (reason : Option String) :
    Except String (List ReturnRecord) :=
  let invoiceValidation := validateInvoiceNumber invoiceNumber false
  if !invoiceValidation.valid then
    .error (jsOrStr invoiceValidation.error "Invalid invoice number")
  else
  let accountValidation := validateAccountNumber accountNumber false
  if !accountValidation.valid then
    .error (jsOrStr accountValidation.error "Invalid account number")
  else
  let imageUrls := successfulUrls uploadResults
  if imageUrls.isEmpty then
    .error "No successful uploads to insert"
  else
  let invoiceNumValidation := validateNumericString (jsOrStr invoiceValidation.sanitized invoiceNumber)
  match invoiceNumValidation.number with
  | some invoiceNum =>
    let sanitizedReason := computeSanitizedReason reason
    if lookupFailed resp then
      .error "Failed to check for existing record. Please try again."
    else
      match resp.data with
      | some existingData =>
          let existingImages := existingImagesOf existingData
          let allImages := mergeImages existingImages imageUrls
          let updatedWarehouseNotes :=
            mergeNotes (jsOrStr existingData.warehouse_notes "") sanitizedReason
          match writeFault with
          | some code =>
              .error (if code = "42501" then permissionMsg
                      else "Failed to update existing record. Please try again.")
          | none => .ok (applyMergeUpdate store invoiceNum allImages updatedWarehouseNotes)
      | none =>
          let rowData : ReturnRecord :=
            { invoiceNumber := invoiceNum, rNumber := none,
              accountNumber := jsOrStr accountValidation.sanitized accountNumber,
              images := imageUrls, created_at := nowIso, sales_notes := "",
              warehouse_notes := sanitizedReason, status := some "Logged",
              action := none, team := none }
          match writeFault with
          | some code =>
              .error (if code = "42501" then permissionMsg
                      else "Failed to save data. Please try again.")
          | none => .ok (store ++ [rowData])
  | none => .error "Invoice number must be a valid number"

/-! ## ISBN validation and extraction (src/components/ui/barcode-reader.tsx)

The validators normalize over `s.data`; `parseInt(c, 10)` on a digit
character is `c.toNat - '0'.toNat`. -/

/-- `val` in `isValidISBN10`: `c === "X" ? 10 : parseInt(c, 10)`. -/
def isbn10Val (c : Char) : Nat := if c = 'X' then 10 else c.toNat - '0'.toNat

/-- The accumulation loop of `isValidISBN10`:
`for (i = 0; i < 10; i++) sum += (10 - i) * val(chars[i])`, running down the
character list with `i` the current index. -/
def isbn10Sum : Nat → List Char → Nat
  | _, [] => 0
  | i, c :: cs => (10 - i) * isbn10Val c + isbn10Sum (i + 1) cs

/-- The regex gate `/^\d{9}[\dX]$/` of `isValidISBN10`. -/
def isbn10Shape (cs : List Char) : Bool :=
  cs.length == 10 && (cs.take 9).all Char.isDigit &&
    ((cs.getD 9 ' ').isDigit || cs.getD 9 ' ' == 'X')

/-- `isValidISBN10` (barcode-reader.tsx line 48), over the character list. -/
def isValidISBN10L (cs : List Char) : Bool :=
  isbn10Shape cs && isbn10Sum 0 cs % 11 == 0

def isValidISBN10 (s : String) : Bool := isValidISBN10L s.data

/-- Digit value used by `isValidISBN13` after `map(parseInt)`. -/
def digitVal (c : Char) : Nat := c.toNat - '0'.toNat

/-- The accumulation loop of `isValidISBN13`:
`sum += chars[i] * (i % 2 === 0 ? 1 : 3)`. -/
def isbn13Sum : Nat → List Char → Nat
  | _, [] => 0
  | i, c :: cs => (if i % 2 = 0 then 1 else 3) * digitVal c + isbn13Sum (i + 1) cs

/-- The regex gate `/^\d{13}$/` of `isValidISBN13`. -/
def isbn13Shape (cs : List Char) : Bool :=
  cs.length == 13 && cs.all Char.isDigit

/-- `isValidISBN13` (barcode-reader.tsx line 60), over the character list. -/
def isValidISBN13L (cs : List Char) : Bool :=
  isbn13Shape cs && isbn13Sum 0 cs % 10 == 0

def isValidISBN13 (s : String) : Bool := isValidISBN13L s.data

/-- The candidate character class `[\dXx\- ]` of `extractISBN`. -/
def isCandChar (c : Char) : Bool :=
  c.isDigit || c == 'X' || c == 'x' || c == '-' || c == ' '

/-- The global-regex scan `text.match(/[\dXx\- ]{10,17}/g)`: at each
position the engine greedily takes up to 17 candidate characters, succeeds
when at least 10 are available, and resumes after the match; a failed
attempt advances one position (so a too-short run is skipped whole).
Fuel-indexed; every step consumes at least one character, so
`fuel = cs.length` (see `scanCandidates`) never runs out. -/
def scanCandidatesAux : Nat → List Char → List (List Char)
  | 0, _ => []
  | _, [] => []
  | fuel + 1, c :: cs =>
      if isCandChar c then
        let run := (c :: cs).takeWhile isCandChar
        let rest := (c :: cs).dropWhile isCandChar
        if 10 ≤ run.length then
          if run.length ≤ 17 then run :: scanCandidatesAux fuel rest
          else run.take 17 :: scanCandidatesAux fuel (run.drop 17 ++ rest)
        else scanCandidatesAux fuel rest
      else scanCandidatesAux fuel cs

def scanCandidates (cs : List Char) : List (List Char) :=
  scanCandidatesAux cs.length cs

/-- `cand.replace(/[\s\-]/g, "").toUpperCase()`. -/
def normCand (cand : List Char) : List Char :=
  (cand.filter (fun c => !(c.isWhitespace || c == '-'))).map Char.toUpper

/-- The per-candidate test of the `extractISBN` loop: long form first,
then short form. -/
def candValid (cand : List Char) : Option String :=
  let norm := normCand cand
  if norm.length == 13 && isValidISBN13L norm then some (String.mk norm)
  else if norm.length == 10 && isValidISBN10L norm then some (String.mk norm)
  else none

/-- `extractISBN` (barcode-reader.tsx line 70): `if (!text) return null`,
then return the first candidate that validates, else null. -/
def extractISBN (text : String) : Option String :=
  if text = "" then none
  else (scanCandidates text.data).findSome? candValid

/-! ## Submission coordinator and rollback
(src/components/ui/form-data.tsx `handleSubmit`,
src/components/ui/image-panel.tsx `handleUnmarkUploaded` / `clearGallery`) -/

/-- The upload-state slice of a queued gallery item. -/
structure QueueItem where
  id : String
  uploaded : Bool
  uploading : Bool
deriving DecidableEq

/-- The four form fields of `FormData`. -/
structure FormValues where
  creditNumber : String
  rNumber : String
  accNumber : String
  reason : String
deriving DecidableEq

def emptyForm : FormValues := ⟨"", "", "", ""⟩

/-- `handleUnmarkUploaded` (image-panel.tsx line 119). -/
def handleUnmarkUploaded (itemIds : List String) (gallery : List QueueItem) : List QueueItem :=
  gallery.map (fun it =>
    if it.id ∈ itemIds then { it with uploaded := false, uploading := false } else it)

/-- The ids collected in the `catch` block of `handleSubmit`
(form-data.tsx lines 229-236): `.filter((r) => !r.error && r.itemId)`. -/
def uploadedItemIds (finalUploadResults : List UploadResultE) : List String :=
  finalUploadResults.filterMap (fun r =>
    if r.error = none then
      match r.itemId with
      | some id => if id = "" then none else some id
      | none => none
    else none)

/-- The queue and form owned by one open form. -/
structure CoordinatorState where
  gallery : List QueueItem
  form : FormValues
deriving DecidableEq

/-- The state transition performed by `handleSubmit` after the
reconciliation call returns: on an exception the collected uploaded ids are
unmarked (when non-empty) and the form is left as entered; on success the
form resets and `onClearImages` empties the queue. -/
def submitOutcome (st : CoordinatorState) (finalUploadResults : List UploadResultE)
    (reconcileFailed : Bool) : CoordinatorState :=
  if reconcileFailed then
    let ids := uploadedItemIds finalUploadResults
    { gallery := if ids.isEmpty then st.gallery else handleUnmarkUploaded ids st.gallery,
      form := st.form }
  else
    { gallery := [], form := emptyForm }

/-- The lookup response the Supabase select produces from a given store
state: used to express the read-then-write decomposition of the merge. -/
def lookupView (store : List ReturnRecord) (invoiceNum : Int) : LookupResp :=
  match store.find? (fun rec => rec.invoiceNumber == invoiceNum) with
  | some rec => ⟨some ⟨some rec.images, some rec.warehouse_notes⟩, none⟩
  | none => ⟨none, some "PGRST116"⟩

end ReturnsApp

deriving instance DecidableEq for Except

namespace ReturnsApp

/-! ## Shared concrete values used by witnesses and demonstrations -/

/-- A successful upload result for queue item `item1`. -/
def demoResA : UploadResultE :=
  ⟨some "item1", some "bkt", some "p1", some "https://cdn/a.jpg", some "a.jpg", none⟩

/-- A successful upload result for queue item `item2`. -/
def demoResB : UploadResultE :=
  ⟨some "item2", some "bkt", some "p2", some "https://cdn/b.jpg", some "b.jpg", none⟩

/-- A failed upload result (error populated, no public URL). -/
def demoResErr : UploadResultE :=
  ⟨some "item9", none, none, none, none, some "Failed to upload file. Please try again."⟩

/-- An all-empty upload result used as a `getD` fallback. -/
def demoDummyResult : UploadResultE := ⟨none, none, none, none, none, none⟩

/-- A stored row for invoice 21000001 with no images yet. -/
def demoRecord : ReturnRecord :=
  ⟨21000001, some 56012322, "ABC123", [], "t0", "", "", some "Logged", none, none⟩

/-- A stored row for invoice 21000001 holding images `["a", "b"]` and
non-empty warehouse notes. -/
def demoRecordAB : ReturnRecord :=
  ⟨21000001, some 56012322, "ABC123", ["a", "b"], "t0", "", "old", some "Logged", none, none⟩

/-- An upload result whose public URL is `"b"`. -/
def demoResUrlB : UploadResultE := ⟨some "item1", some "bkt", some "p1", some "b", some "b.jpg", none⟩

/-- An upload result whose public URL is `"c"`. -/
def demoResUrlC : UploadResultE := ⟨some "item2", some "bkt", some "p2", some "c", some "c.jpg", none⟩

/-- A gallery item passing every validation gate (JPEG). -/
def demoItemOk1 : GalleryItem :=
  ⟨"item1", some "9780306406157", some "a.jpg", 1000, "image/jpeg",
    [0xFF, 0xD8, 0xFF, 0xE0], none⟩

/-- A gallery item whose blob exceeds the 5 MiB ceiling. -/
def demoItemBig : GalleryItem :=
  ⟨"item2", some "9780306406157", some "b.jpg", 6 * 1024 * 1024, "image/jpeg",
    [0xFF, 0xD8, 0xFF, 0xE0], none⟩

/-- A gallery item passing every validation gate (PNG). -/
def demoItemOk3 : GalleryItem :=
  ⟨"item3", some "0306406152", some "c.png", 2000, "image/png",
    [0x89, 0x50, 0x4E, 0x47], none⟩

/-- A storage layer that accepts everything it is given. -/
def demoPerformUpload : GalleryItem → Except String UploadOk :=
  fun it => .ok ⟨"bkt", "path/" ++ it.id, some ("url-" ++ it.id), it.id ++ ".jpg"⟩

/-- A queued coordinator state: two items marked Uploaded, form filled in. -/
def demoCoord : CoordinatorState :=
  ⟨[⟨"item1", true, false⟩, ⟨"item2", true, false⟩],
   ⟨"21000001", "56012322", "ABC123", "damaged box"⟩⟩

/-- `getD` fallback queue item. -/
def demoDummyItem : QueueItem := ⟨"", false, false⟩

/-- C2: performing the reconciliation merge with the same
`(invoiceNumber, imageReferences)` pair twice yields the same images list
as performing it once — the second merge adds nothing, the length is that
of the single submission, and merging never introduces duplicates into a
duplicate-free list. -/
theorem merge_reconcile_idempotent :
    (∀ E R : List String, mergeImages (mergeImages E R) R = mergeImages E R)
    ∧ (∀ E R : List String,
        (mergeImages (mergeImages E R) R).length = (mergeImages E R).length)
    ∧ (∀ E R : List String, E.Nodup → (mergeImages E R).Nodup) :=
  ⟨fun E R => mergeImages_idem E R,
   fun E R => by rw [mergeImages_idem],
   fun E R h => mergeImages_nodup R E h⟩

/-- Witness for C2 at a concrete queue. -/
theorem merge_reconcile_idempotent_witness :
    (["a", "b"] : List String).Nodup
    ∧ (mergeImages ["a", "b"] ["b", "c"]).Nodup
    ∧ mergeImages (mergeImages ["a", "b"] ["b", "c"]) ["b", "c"] = mergeImages ["a", "b"] ["b", "c"] :=
  ⟨by decide,
   merge_reconcile_idempotent.2.2 ["a", "b"] ["b", "c"] (by decide),
   merge_reconcile_idempotent.1 ["a", "b"] ["b", "c"]⟩

/-- The merge update writes only `images` and `warehouse_notes`: every
other column of every row is unchanged. -/
theorem applyMergeUpdate_preserves (st : List ReturnRecord) (i : Int)
    (imgs : List String) (notes : String) (j : Nat) (d : ReturnRecord) :
    ((applyMergeUpdate st i imgs notes).getD j d).status = (st.getD j d).status
    ∧ ((applyMergeUpdate st i imgs notes).getD j d).team = (st.getD j d).team
    ∧ ((applyMergeUpdate st i imgs notes).getD j d).action = (st.getD j d).action
    ∧ ((applyMergeUpdate st i imgs notes).getD j d).invoiceNumber = (st.getD j d).invoiceNumber
    ∧ ((applyMergeUpdate st i imgs notes).getD j d).accountNumber = (st.getD j d).accountNumber
    ∧ ((applyMergeUpdate st i imgs notes).getD j d).rNumber = (st.getD j d).rNumber
    ∧ ((applyMergeUpdate st i imgs notes).getD j d).created_at = (st.getD j d).created_at
    ∧ ((applyMergeUpdate st i imgs notes).getD j d).sales_notes = (st.getD j d).sales_notes := by
  unfold applyMergeUpdate
  rcases h : st[j]? with _ | rec
  · simp [List.getD_eq_getElem?_getD, List.getElem?_map, h]
  · by_cases hk : rec.invoiceNumber = i <;>
      simp [List.getD_eq_getElem?_getD, List.getElem?_map, h, hk]

/-- C1: merging newly uploaded references `R` and an optional reason into
an existing record with images `E` and warehouse notes `N` (via
`insertOverstockData` or `insertDamagesData`) appends exactly the elements
of `R` not already in `E`, in `R`'s order, after `E`; the notes stay `N`
without a new reason, become the reason when `N` is empty, and otherwise
gain a newline-joined suffix; and the update touches only `images` and
`warehouse_notes` — `status`, `team` and `action` are untouched. -/
theorem existing_record_merge
    (store : List ReturnRecord) (nowIso inv acc rnum : String)
    (results : List UploadResultE) (reason : Option String)
    (E : List String) (N : String) (k m : Int)
    (hInv : (validateInvoiceNumber inv false).valid = true)
    (hAcc : (validateAccountNumber acc false).valid = true)
    (hR : (validateRNumber rnum false).valid = true)
    (hNum : (validateNumericString (jsOrStr (validateInvoiceNumber inv false).sanitized inv)).number = some k)
    (hRNum : (validateNumericString (jsOrStr (validateRNumber rnum false).sanitized rnum)).number = some m)
    (hUrls : successfulUrls results ≠ [])
    (hNodup : (successfulUrls results).Nodup) :
    insertOverstockData ⟨some ⟨some E, some N⟩, none⟩ none nowIso store inv acc rnum results reason
      = .ok (applyMergeUpdate store k
          (E ++ (successfulUrls results).filter (fun u => u ∉ E))
          (mergeNotes N (computeSanitizedReason reason)))
    ∧ insertDamagesData ⟨some ⟨some E, some N⟩, none⟩ none nowIso store inv acc results reason
      = .ok (applyMergeUpdate store k
          (E ++ (successfulUrls results).filter (fun u => u ∉ E))
          (mergeNotes N (computeSanitizedReason reason)))
    ∧ (computeSanitizedReason reason = "" →
        mergeNotes N (computeSanitizedReason reason) = N)
    ∧ (computeSanitizedReason reason ≠ "" → N = "" →
        mergeNotes N (computeSanitizedReason reason) = computeSanitizedReason reason)
    ∧ (computeSanitizedReason reason ≠ "" → N ≠ "" →
        mergeNotes N (computeSanitizedReason reason) = N ++ "\n" ++ computeSanitizedReason reason)
    ∧ (∀ (st : List ReturnRecord) (i : Int) (imgs : List String) (notes : String)
        (j : Nat) (d : ReturnRecord),
        ((applyMergeUpdate st i imgs notes).getD j d).status = (st.getD j d).status
        ∧ ((applyMergeUpdate st i imgs notes).getD j d).team = (st.getD j d).team
        ∧ ((applyMergeUpdate st i imgs notes).getD j d).action = (st.getD j d).action) := by
  have hne : (successfulUrls results).isEmpty = false := by
    cases hc : successfulUrls results with
    | nil => exact absurd hc hUrls
    | cons a l => rfl
  have hmerge := mergeImages_eq_append_filter (successfulUrls results) E hNodup
  refine ⟨?_, ?_, ?_, ?_, ?_, ?_⟩
  · simp [insertOverstockData, hInv, hAcc, hR, hne, hNum, hRNum, lookupFailed,
      existingImagesOf, hmerge, jsOrStr_some_empty_default]
  · simp [insertDamagesData, hInv, hAcc, hne, hNum, lookupFailed,
      existingImagesOf, hmerge, jsOrStr_some_empty_default]
  · intro h; simp [mergeNotes, h]
  · intro h hN; simp [mergeNotes, h, hN]
  · intro h hN; simp [mergeNotes, h, hN]
  · intro st i imgs notes j d
    exact ⟨(applyMergeUpdate_preserves st i imgs notes j d).1,
      (applyMergeUpdate_preserves st i imgs notes j d).2.1,
      (applyMergeUpdate_preserves st i imgs notes j d).2.2.1⟩

/-- Witness for C1: merging new references `[b, c]` into existing `[a, b]`
for invoice 21000001. -/
theorem existing_record_merge_witness :
    (successfulUrls [demoResUrlB, demoResUrlC]).Nodup
    ∧ insertOverstockData ⟨some ⟨some ["a", "b"], some "old"⟩, none⟩ none "t1" [demoRecordAB]
        "21000001" "ABC123" "56012322" [demoResUrlB, demoResUrlC] (some "why")
      = .ok (applyMergeUpdate [demoRecordAB] 21000001
          (["a", "b"] ++ (successfulUrls [demoResUrlB, demoResUrlC]).filter (fun u => u ∉ ["a", "b"]))
          (mergeNotes "old" (computeSanitizedReason (some "why")))) :=
  ⟨by decide,
   (existing_record_merge [demoRecordAB] "t1" "21000001" "ABC123" "56012322"
      [demoResUrlB, demoResUrlC] (some "why") ["a", "b"] "old" 21000001 56012322
      (by decide) (by decide) (by decide) (by decide) (by decide) (by decide) (by decide)).1⟩

/-- Every result row records the id of the item it was produced from. -/
theorem uploadResultOf_itemId (performUpload : GalleryItem → Except String UploadOk)
    (it : GalleryItem) : (uploadResultOf performUpload it).itemId = some it.id := by
  unfold uploadResultOf
  cases uploadGalleryItem performUpload it <;> rfl

/-- C3: `uploadGalleryItems` processes the queue sequentially in input
order, returning exactly one result per item in the same order, each
carrying that item's id; one item's failure affects only its own result
and never aborts the batch — demonstrated on a 3-item queue whose second
item exceeds the size ceiling (2 successes, 1 size error, no exception). -/
theorem uploadAll_batch_semantics (performUpload : GalleryItem → Except String UploadOk)
    (items : List GalleryItem) :
    (uploadGalleryItems performUpload items).length = items.length
    ∧ (uploadGalleryItems performUpload items).map (fun r => r.itemId)
        = items.map (fun it => some it.id)
    ∧ (∀ (pre : List GalleryItem) (it : GalleryItem) (post : List GalleryItem),
        uploadGalleryItems performUpload (pre ++ it :: post)
          = uploadGalleryItems performUpload pre
            ++ uploadResultOf performUpload it :: uploadGalleryItems performUpload post)
    ∧ (uploadGalleryItems demoPerformUpload [demoItemOk1, demoItemBig, demoItemOk3]).length = 3
    ∧ ((uploadGalleryItems demoPerformUpload [demoItemOk1, demoItemBig, demoItemOk3]).filter
        (fun r => r.error = none)).length = 2
    ∧ ((uploadGalleryItems demoPerformUpload [demoItemOk1, demoItemBig, demoItemOk3]).filter
        (fun r => r.error ≠ none)).length = 1
    ∧ ((uploadGalleryItems demoPerformUpload [demoItemOk1, demoItemBig, demoItemOk3]).getD 1
        demoDummyResult).error = some "File size exceeds 5MB limit" := by
  refine ⟨?_, ?_, ?_, by decide, by decide, by decide, by decide⟩
  · simp [uploadGalleryItems]
  · simp [uploadGalleryItems, List.map_map, Function.comp_def, uploadResultOf_itemId]
  · intro pre it post
    simp [uploadGalleryItems]

/-- C4: the synchronous validation gates of `uploadGalleryItem` run in the
order size, declared type, content signature; a failing gate rejects the
item before the storage call (the result does not depend on
`performUpload`), and only an item passing all three reaches the upload;
the content gate accepts exactly the four magic-number prefixes. -/
theorem upload_validation_gate (item : GalleryItem) :
    (item.blobSize > 5 * 1024 * 1024 →
      ∀ performUpload, uploadGalleryItem performUpload item
        = .error "File size exceeds 5MB limit")
    ∧ (item.blobSize ≤ 5 * 1024 * 1024 →
        strToLower item.blobType ∉ allowedImageTypes →
        ∀ performUpload, uploadGalleryItem performUpload item
          = .error "Only image files (JPEG, PNG, WebP, GIF) are allowed")
    ∧ (item.blobSize ≤ 5 * 1024 * 1024 →
        strToLower item.blobType ∈ allowedImageTypes →
        (validateImageContent item.blobBytes).valid = false →
        ∀ performUpload, uploadGalleryItem performUpload item
          = .error "Failed to validate image file")
    ∧ (item.blobSize ≤ 5 * 1024 * 1024 →
        strToLower item.blobType ∈ allowedImageTypes →
        (validateImageContent item.blobBytes).valid = true →
        ∀ performUpload, uploadGalleryItem performUpload item = performUpload item)
    ∧ ((validateImageContent item.blobBytes).valid = true ↔
        ((item.blobBytes[0]? = some 0xFF ∧ item.blobBytes[1]? = some 0xD8)
        ∨ (item.blobBytes[0]? = some 0x89 ∧ item.blobBytes[1]? = some 0x50
            ∧ item.blobBytes[2]? = some 0x4E ∧ item.blobBytes[3]? = some 0x47)
        ∨ (item.blobBytes[0]? = some 0x47 ∧ item.blobBytes[1]? = some 0x49
            ∧ item.blobBytes[2]? = some 0x46)
        ∨ (item.blobBytes[0]? = some 0x52 ∧ item.blobBytes[1]? = some 0x49
            ∧ item.blobBytes[2]? = some 0x46 ∧ item.blobBytes[3]? = some 0x46))) := by
  refine ⟨?_, ?_, ?_, ?_, ?_⟩
  · intro h performUpload
    have hs : (5 * 1024 * 1024 : Nat) < item.blobSize := h
    simp [uploadGalleryItem, validateFileSize, hs, jsOrStr]
  · intro h ht performUpload
    have hs : ¬ (5 * 1024 * 1024 : Nat) < item.blobSize := by omega
    simp [uploadGalleryItem, validateFileSize, validateFileType, hs, ht, jsOrStr]
  · intro h ht hc performUpload
    have hs : ¬ (5 * 1024 * 1024 : Nat) < item.blobSize := by omega
    simp [uploadGalleryItem, validateFileSize, validateFileType, hs, ht, hc]
  · intro h ht hc performUpload
    have hs : ¬ (5 * 1024 * 1024 : Nat) < item.blobSize := by omega
    simp [uploadGalleryItem, validateFileSize, validateFileType, hs, ht, hc]
  · simp only [validateImageContent]
    cases hJ : (item.blobBytes[0]? == some 0xFF && item.blobBytes[1]? == some 0xD8) <;>
    cases hP : (item.blobBytes[0]? == some 0x89 && item.blobBytes[1]? == some 0x50 &&
        item.blobBytes[2]? == some 0x4E && item.blobBytes[3]? == some 0x47) <;>
    cases hG : (item.blobBytes[0]? == some 0x47 && item.blobBytes[1]? == some 0x49 &&
        item.blobBytes[2]? == some 0x46) <;>
    cases hW : (item.blobBytes[0]? == some 0x52 && item.blobBytes[1]? == some 0x49 &&
        item.blobBytes[2]? == some 0x46 && item.blobBytes[3]? == some 0x46) <;>
    simp_all [Bool.and_eq_true, beq_iff_eq, beq_eq_false_iff_ne]

/-- Witness for C4: a 6 MiB item is rejected with the size error before
any storage interaction. -/
theorem upload_validation_gate_witness :
    demoItemBig.blobSize > 5 * 1024 * 1024
    ∧ uploadGalleryItem demoPerformUpload demoItemBig
        = .error "File size exceeds 5MB limit" :=
  ⟨by decide, (upload_validation_gate demoItemBig).1 (by decide) demoPerformUpload⟩

/-! ## Specification-side formulations of the identifier validators.

These two predicates follow the wording of the spec (section 4.1) rather
than the source and are compared with the source embedding. -/

/-- The spec's short-form condition: exactly 10 characters, characters 0-8
digits, character 9 a digit or `X`, and `Σ (10 - i) * value(s[i])` for
`i` in `0..9` divisible by 11. -/
def shortFormOK (s : String) : Prop :=
  s.data.length = 10
  ∧ (∀ i, i < 9 → (s.data.getD i ' ').isDigit = true)
  ∧ ((s.data.getD 9 ' ').isDigit = true ∨ s.data.getD 9 ' ' = 'X')
  ∧ (∑ i in Finset.range 10, (10 - i) * isbn10Val (s.data.getD i ' ')) % 11 = 0

/-- The spec's long-form condition: exactly 13 digits and
`Σ value(s[i]) * (1 if i even else 3)` divisible by 10. -/
def longFormOK (s : String) : Prop :=
  s.data.length = 13
  ∧ (∀ i, i < 13 → (s.data.getD i ' ').isDigit = true)
  ∧ (∑ i in Finset.range 13, (if i % 2 = 0 then 1 else 3) * digitVal (s.data.getD i ' ')) % 10 = 0

theorem isbn10Sum_eq_sum (cs : List Char) :
    ∀ k, isbn10Sum k cs
      = ∑ j in Finset.range cs.length, (10 - (k + j)) * isbn10Val (cs.getD j ' ') := by
  induction cs with
  | nil => intro k; simp [isbn10Sum]
  | cons c cs ih =>
      intro k
      have hsum : (∑ j in Finset.range (c :: cs).length, (10 - (k + j)) * isbn10Val ((c :: cs).getD j ' '))
          = (∑ j in Finset.range cs.length, (10 - (k + 1 + j)) * isbn10Val (cs.getD j ' '))
            + (10 - k) * isbn10Val c := by
        rw [List.length_cons, Finset.sum_range_succ']
        congr 1
        refine Finset.sum_congr rfl (fun j _ => ?_)
        have harg : k + (j + 1) = k + 1 + j := by omega
        simp [List.getD_cons_succ, harg]
      rw [isbn10Sum, ih (k + 1), hsum]
      exact Nat.add_comm _ _

theorem isbn13Sum_eq_sum (cs : List Char) :
    ∀ k, isbn13Sum k cs
      = ∑ j in Finset.range cs.length, (if (k + j) % 2 = 0 then 1 else 3) * digitVal (cs.getD j ' ') := by
  induction cs with
  | nil => intro k; simp [isbn13Sum]
  | cons c cs ih =>
      intro k
      have hsum : (∑ j in Finset.range (c :: cs).length, (if (k + j) % 2 = 0 then 1 else 3) * digitVal ((c :: cs).getD j ' '))
          = (∑ j in Finset.range cs.length, (if (k + 1 + j) % 2 = 0 then 1 else 3) * digitVal (cs.getD j ' '))
            + (if k % 2 = 0 then 1 else 3) * digitVal c := by
        rw [List.length_cons, Finset.sum_range_succ']
        congr 1
        refine Finset.sum_congr rfl (fun j _ => ?_)
        have harg : k + (j + 1) = k + 1 + j := by omega
        simp [List.getD_cons_succ, harg]
      rw [isbn13Sum, ih (k + 1), hsum]
      exact Nat.add_comm _ _

/-- Bridging `(l.take n).all p` with an indexed quantifier. -/
theorem all_take_iff (p : Char → Bool) :
    ∀ (n : Nat) (l : List Char), n ≤ l.length →
      (((l.take n).all p) = true ↔ ∀ i, i < n → p (l.getD i ' ') = true) := by
  intro n
  induction n with
  | zero => intro l _; simp
  | succ n ih =>
      intro l hl
      cases l with
      | nil => simp at hl
      | cons c l =>
          have hle : n ≤ l.length := by simpa using hl
          rw [List.take_succ_cons]
          simp only [List.all_cons, Bool.and_eq_true]
          rw [ih l hle]
          constructor
          · rintro ⟨hpc, hrest⟩ i hi
            cases i with
            | zero => simpa using hpc
            | succ i => simpa [List.getD_cons_succ] using hrest i (by omega)
          · intro h
            refine ⟨by simpa using h 0 (by omega), fun i hi => ?_⟩
            simpa [List.getD_cons_succ] using h (i + 1) (by omega)

theorem isValidISBN10_iff (s : String) : isValidISBN10 s = true ↔ shortFormOK s := by
  unfold isValidISBN10 isValidISBN10L isbn10Shape shortFormOK
  have hkey : ∀ h : s.data.length = 10,
      isbn10Sum 0 s.data = ∑ j in Finset.range 10, (10 - j) * isbn10Val (s.data.getD j ' ') := by
    intro h
    rw [isbn10Sum_eq_sum s.data 0, h]
    exact Finset.sum_congr rfl (fun j _ => by rw [Nat.zero_add])
  constructor
  · intro h
    simp only [Bool.and_eq_true, beq_iff_eq, Bool.or_eq_true] at h
    obtain ⟨⟨⟨hlen, hall⟩, hlast⟩, hsum⟩ := h
    refine ⟨hlen, (all_take_iff Char.isDigit 9 s.data (by omega)).mp hall, ?_, ?_⟩
    · simpa using hlast
    · rw [← hkey hlen]
      exact hsum
  · rintro ⟨hlen, hdigits, hlast, hsum⟩
    simp only [Bool.and_eq_true, beq_iff_eq, Bool.or_eq_true]
    refine ⟨⟨⟨hlen, ?_⟩, ?_⟩, ?_⟩
    · exact (all_take_iff Char.isDigit 9 s.data (by omega)).mpr hdigits
    · simpa using hlast
    · rw [hkey hlen]
      exact hsum

theorem isValidISBN13_iff (s : String) : isValidISBN13 s = true ↔ longFormOK s := by
  unfold isValidISBN13 isValidISBN13L isbn13Shape longFormOK
  have hkey : ∀ h : s.data.length = 13,
      isbn13Sum 0 s.data
        = ∑ j in Finset.range 13, (if j % 2 = 0 then 1 else 3) * digitVal (s.data.getD j ' ') := by
    intro h
    rw [isbn13Sum_eq_sum s.data 0, h]
    exact Finset.sum_congr rfl (fun j _ => by rw [Nat.zero_add])
  constructor
  · intro h
    simp only [Bool.and_eq_true, beq_iff_eq] at h
    obtain ⟨⟨hlen, hall⟩, hsum⟩ := h
    refine ⟨hlen, ?_, ?_⟩
    · have hiff := all_take_iff Char.isDigit 13 s.data (by omega)
      rw [List.take_of_length_le (by omega)] at hiff
      exact hiff.mp hall
    · rw [← hkey hlen]
      exact hsum
  · rintro ⟨hlen, hdigits, hsum⟩
    simp only [Bool.and_eq_true, beq_iff_eq]
    refine ⟨⟨hlen, ?_⟩, ?_⟩
    · have hiff := all_take_iff Char.isDigit 13 s.data (by omega)
      rw [List.take_of_length_le (by omega)] at hiff
      exact hiff.mpr hdigits
    · rw [hkey hlen]
      exact hsum

/-- C5: the short-form validator accepts exactly the strings satisfying the
weighted mod-11 checksum condition, the long-form validator exactly those
satisfying the alternating-weight mod-10 condition; in particular
"0306406152" passes and "0306406151" fails the short form, and
"9780306406157" passes the long form. -/
theorem isbn_validators_spec :
    (∀ s : String, (isValidISBN10 s = true ↔ shortFormOK s)
      ∧ (isValidISBN13 s = true ↔ longFormOK s))
    ∧ isValidISBN10 "0306406152" = true
    ∧ isValidISBN10 "0306406151" = false
    ∧ isValidISBN13 "9780306406157" = true :=
  ⟨fun s => ⟨isValidISBN10_iff s, isValidISBN13_iff s⟩, by decide, by decide, by decide⟩

/-- Every candidate produced by the scan has 10 to 17 characters, all drawn
from the candidate character class. -/
theorem scanCandidatesAux_shape :
    ∀ (fuel : Nat) (cs cand : List Char), cand ∈ scanCandidatesAux fuel cs →
      10 ≤ cand.length ∧ cand.length ≤ 17 ∧ ∀ c ∈ cand, isCandChar c = true := by
  intro fuel
  induction fuel with
  | zero => intro cs cand h; simp [scanCandidatesAux] at h
  | succ fuel ih =>
      intro cs cand h
      cases cs with
      | nil => simp [scanCandidatesAux] at h
      | cons c cs =>
          simp only [scanCandidatesAux] at h
          split_ifs at h with h1 h2 h3
          · rcases List.mem_cons.mp h with rfl | hmem
            · exact ⟨h2, h3, fun x hx => List.mem_takeWhile_imp hx⟩
            · exact ih _ _ hmem
          · rcases List.mem_cons.mp h with rfl | hmem
            · refine ⟨?_, ?_, fun x hx => List.mem_takeWhile_imp (List.mem_of_mem_take hx)⟩
              · rw [List.length_take]; omega
              · rw [List.length_take]; omega
            · exact ih _ _ hmem
          · exact ih _ _ h
          · exact ih _ _ h

theorem findSome?_candValid_none_iff (l : List (List Char)) :
    l.findSome? candValid = none ↔ ∀ cand ∈ l, candValid cand = none := by
  induction l with
  | nil => simp
  | cons c l ih =>
      cases hc : candValid c <;> simp [List.findSome?_cons, hc, ih]

theorem findSome?_candValid_some_split (l : List (List Char)) (r : String) :
    l.findSome? candValid = some r →
    ∃ pre cand post, l = pre ++ cand :: post
      ∧ (∀ c ∈ pre, candValid c = none) ∧ candValid cand = some r := by
  induction l with
  | nil => simp
  | cons c l ih =>
      intro h
      cases hc : candValid c with
      | some r0 =>
          rw [List.findSome?_cons, hc] at h
          refine ⟨[], c, l, rfl, by simp, ?_⟩
          rw [hc]
          exact h
      | none =>
          rw [List.findSome?_cons, hc] at h
          obtain ⟨pre, cand, post, rfl, hpre, hcand⟩ := ih h
          refine ⟨c :: pre, cand, post, rfl, ?_, hcand⟩
          intro x hx
          rcases List.mem_cons.mp hx with rfl | hx
          · exact hc
          · exact hpre x hx

/-- C6: `extractISBN` scans for candidate substrings of 10-17 characters
drawn from digits / X / x / hyphen / space, tests each normalized
candidate long-form first then short-form, returns the first valid
identifier, and returns `none` exactly when no candidate validates (the
embedding is a total function, so no exception is possible); with the two
concrete behaviours of the spec. -/
theorem extractISBN_spec :
    extractISBN "foo 9780306406157 bar" = some "9780306406157"
    ∧ extractISBN "no code here" = none
    ∧ (∀ (t : String) (cand : List Char), cand ∈ scanCandidates t.data →
        10 ≤ cand.length ∧ cand.length ≤ 17 ∧ ∀ c ∈ cand, isCandChar c = true)
    ∧ (∀ t : String, extractISBN t = none ↔ ∀ cand ∈ scanCandidates t.data, candValid cand = none)
    ∧ (∀ (t r : String), extractISBN t = some r →
        ∃ pre cand post, scanCandidates t.data = pre ++ cand :: post
          ∧ (∀ c ∈ pre, candValid c = none) ∧ candValid cand = some r) := by
  refine ⟨by decide, by decide, ?_, ?_, ?_⟩
  · intro t cand h
    exact scanCandidatesAux_shape t.data.length t.data cand h
  · intro t
    by_cases ht : t = ""
    · subst ht
      have hscan : scanCandidates ("" : String).data = [] := rfl
      simp [extractISBN, hscan]
    · simp only [extractISBN, ht, if_false]
      exact findSome?_candValid_none_iff (scanCandidates t.data)
  · intro t r h
    by_cases ht : t = ""
    · subst ht; simp [extractISBN] at h
    · simp only [extractISBN, ht, if_false] at h
      exact findSome?_candValid_some_split (scanCandidates t.data) r h

/-- Witness for C6 at the spec's concrete inputs. -/
theorem extractISBN_spec_witness :
    ((" 9780306406157 " : String).data ∈ scanCandidates ("foo 9780306406157 bar" : String).data
      ∧ 10 ≤ (" 9780306406157 " : String).data.length)
    ∧ (∀ cand ∈ scanCandidates ("no code here" : String).data, candValid cand = none) :=
  ⟨⟨by decide,
    (extractISBN_spec.2.2.1 "foo 9780306406157 bar" (" 9780306406157 " : String).data (by decide)).1⟩,
   (extractISBN_spec.2.2.2.1 "no code here").mp (by decide)⟩

/-- C7: during reconciliation a lookup-miss (`PGRST116`) proceeds to insert
a new record, while any other lookup error aborts with the propagated
failure before any insert or update is attempted — the result is an error
regardless of the injected write fault or the returned row, so no write
occurs and the store is unchanged. -/
theorem lookup_error_vs_miss
    (store : List ReturnRecord) (nowIso inv acc rnum : String)
    (results : List UploadResultE) (reason : Option String) (k m : Int)
    (hInv : (validateInvoiceNumber inv false).valid = true)
    (hAcc : (validateAccountNumber acc false).valid = true)
    (hR : (validateRNumber rnum false).valid = true)
    (hNum : (validateNumericString (jsOrStr (validateInvoiceNumber inv false).sanitized inv)).number = some k)
    (hRNum : (validateNumericString (jsOrStr (validateRNumber rnum false).sanitized rnum)).number = some m)
    (hUrls : successfulUrls results ≠ [])
    (code : String) (hcode : code ≠ "PGRST116") :
    (∀ (data : Option RecordView) (writeFault : Option String),
        insertOverstockData ⟨data, some code⟩ writeFault nowIso store inv acc rnum results reason
          = .error "Failed to check for existing record. Please try again.")
    ∧ (∀ (data : Option RecordView) (writeFault : Option String),
        insertDamagesData ⟨data, some code⟩ writeFault nowIso store inv acc results reason
          = .error "Failed to check for existing record. Please try again.")
    ∧ (∃ newRec : ReturnRecord,
        insertOverstockData ⟨none, some "PGRST116"⟩ none nowIso store inv acc rnum results reason
          = .ok (store ++ [newRec])
        ∧ newRec.invoiceNumber = k ∧ newRec.images = successfulUrls results
        ∧ newRec.status = some "Logged")
    ∧ (∃ newRec : ReturnRecord,
        insertDamagesData ⟨none, some "PGRST116"⟩ none nowIso store inv acc results reason
          = .ok (store ++ [newRec])
        ∧ newRec.invoiceNumber = k ∧ newRec.images = successfulUrls results
        ∧ newRec.rNumber = none) := by
  have hne : (successfulUrls results).isEmpty = false := by
    cases hc : successfulUrls results with
    | nil => exact absurd hc hUrls
    | cons a l => rfl
  refine ⟨?_, ?_, ?_, ?_⟩
  · intro data writeFault
    simp [insertOverstockData, hInv, hAcc, hR, hne, hNum, hRNum, lookupFailed, hcode]
  · intro data writeFault
    simp [insertDamagesData, hInv, hAcc, hne, hNum, lookupFailed, hcode]
  · refine ⟨⟨k, some m, jsOrStr (validateAccountNumber acc false).sanitized acc,
        successfulUrls results, nowIso, "", computeSanitizedReason reason,
        some "Logged", none, none⟩, ?_, rfl, rfl, rfl⟩
    simp [insertOverstockData, hInv, hAcc, hR, hne, hNum, hRNum, lookupFailed]
  · refine ⟨⟨k, none, jsOrStr (validateAccountNumber acc false).sanitized acc,
        successfulUrls results, nowIso, "", computeSanitizedReason reason,
        some "Logged", none, none⟩, ?_, rfl, rfl, rfl⟩
    simp [insertDamagesData, hInv, hAcc, hne, hNum, lookupFailed]

/-- Witness for C7: error code 500 aborts; the insert path is exercised
with a `PGRST116` miss. -/
theorem lookup_error_vs_miss_witness :
    ("500" : String) ≠ "PGRST116"
    ∧ insertOverstockData ⟨none, some "500"⟩ none "t1" [] "21000001" "ABC123" "56012322"
        [demoResA] none
      = .error "Failed to check for existing record. Please try again." :=
  ⟨by decide,
   (lookup_error_vs_miss [] "t1" "21000001" "ABC123" "56012322" [demoResA] none
      21000001 56012322 (by decide) (by decide) (by decide) (by decide) (by decide)
      (by decide) "500" (by decide)).1 none none⟩

/-- C8: when the submission fails, every queued item with a successful
upload result from this attempt is reverted to Pending and the form keeps
its entered values; on success the queue is cleared and the form resets. -/
theorem submit_rollback (st : CoordinatorState) (finalResults : List UploadResultE) :
    (submitOutcome st finalResults true).form = st.form
    ∧ (∀ (j : Nat) (d : QueueItem) (r : UploadResultE),
        r ∈ finalResults → r.error = none → r.itemId = some (st.gallery.getD j d).id →
        (st.gallery.getD j d).id ≠ "" → j < st.gallery.length →
        ((submitOutcome st finalResults true).gallery.getD j d).uploaded = false)
    ∧ (submitOutcome st finalResults false).gallery = []
    ∧ (submitOutcome st finalResults false).form = emptyForm := by
  refine ⟨by simp [submitOutcome], ?_, by simp [submitOutcome], by simp [submitOutcome]⟩
  intro j d r hr herr hid hne hj
  have hmem : (st.gallery.getD j d).id ∈ uploadedItemIds finalResults := by
    simp only [uploadedItemIds, List.mem_filterMap]
    refine ⟨r, hr, ?_⟩
    rw [herr, hid]
    show (if (st.gallery.getD j d).id = "" then none
      else some ((st.gallery.getD j d).id)) = some ((st.gallery.getD j d).id)
    exact if_neg hne
  have hemp : (uploadedItemIds finalResults).isEmpty = false := by
    cases hc : uploadedItemIds finalResults with
    | nil => rw [hc] at hmem; cases hmem
    | cons a l => rfl
  have hgd : st.gallery.getD j d = st.gallery[j] := by
    rw [List.getD_eq_getElem?_getD, List.getElem?_eq_getElem hj]
    rfl
  have hidmem : st.gallery[j].id ∈ uploadedItemIds finalResults := by rwa [hgd] at hmem
  simp only [submitOutcome, if_true, hemp, Bool.false_eq_true, if_false]
  rw [handleUnmarkUploaded, List.getD_eq_getElem?_getD, List.getElem?_map,
    List.getElem?_eq_getElem hj]
  simp [hidmem]

/-- Witness for C8: two items marked Uploaded are both reverted by a
failed submission. -/
theorem submit_rollback_witness :
    (demoResA ∈ [demoResA, demoResB] ∧ demoResA.error = none)
    ∧ ((submitOutcome demoCoord [demoResA, demoResB] true).gallery.getD 0 demoDummyItem).uploaded
        = false :=
  ⟨⟨by decide, by decide⟩,
   (submit_rollback demoCoord [demoResA, demoResB]).2.1 0 demoDummyItem demoResA
     (by decide) (by decide) (by decide) (by decide) (by decide)⟩

/-- C9 (refuted by the code): the merge is implemented as an unguarded
read-then-write — a Supabase `select` followed by a separate `update` with
no conditional guard — so the interleaving read1, read2, write1, write2 of
two submissions for the same invoice number loses the first submission's
accepted reference: after both complete, `https:cdn-a` is gone even though
submission 1 returned success with it stored. -/
theorem merge_read_then_write_lost_update :
    insertOverstockData (lookupView [demoRecord] 21000001) none "t1" [demoRecord]
      "21000001" "ABC123" "56012322" [demoResA] none
      = .ok [{ demoRecord with images := ["https://cdn/a.jpg"] }]
    ∧ insertOverstockData (lookupView [demoRecord] 21000001) none "t2"
        [{ demoRecord with images := ["https://cdn/a.jpg"] }]
        "21000001" "ABC123" "56012322" [demoResB] none
      = .ok [{ demoRecord with images := ["https://cdn/b.jpg"] }]
    ∧ "https://cdn/a.jpg" ∈ ({ demoRecord with images := ["https://cdn/a.jpg"] } : ReturnRecord).images
    ∧ "https://cdn/a.jpg" ∉ ({ demoRecord with images := ["https://cdn/b.jpg"] } : ReturnRecord).images :=
  ⟨by decide, by decide, by decide, by decide⟩

/-- C10: when no upload result is successful both reconcilers throw
"No successful uploads to insert" before the record-store lookup — the
result does not depend on the lookup response, the injected write fault or
the store, so the store is untouched. -/
theorem no_successful_uploads_rejected
    (inv acc rnum : String) (results : List UploadResultE)
    (hInv : (validateInvoiceNumber inv false).valid = true)
    (hAcc : (validateAccountNumber acc false).valid = true)
    (hR : (validateRNumber rnum false).valid = true)
    (hNone : ∀ r ∈ results, r.error ≠ none ∨ r.publicUrl = none ∨ r.publicUrl = some "") :
    (∀ (resp : LookupResp) (writeFault : Option String) (nowIso : String)
        (store : List ReturnRecord) (reason : Option String),
        insertOverstockData resp writeFault nowIso store inv acc rnum results reason
          = .error "No successful uploads to insert")
    ∧ (∀ (resp : LookupResp) (writeFault : Option String) (nowIso : String)
        (store : List ReturnRecord) (reason : Option String),
        insertDamagesData resp writeFault nowIso store inv acc results reason
          = .error "No successful uploads to insert") := by
  have hurls : successfulUrls results = [] := by
    unfold successfulUrls
    rw [List.filterMap_eq_nil_iff]
    intro r hr
    rcases hNone r hr with h | h | h
    · cases hpu : r.publicUrl <;> simp [h]
    · simp [h]
    · simp [h]
  have hemp : (successfulUrls results).isEmpty = true := by rw [hurls]; rfl
  constructor <;> intro resp writeFault nowIso store reason
  · simp [insertOverstockData, hInv, hAcc, hR, hemp]
  · simp [insertDamagesData, hInv, hAcc, hemp]

/-- Witness for C10: a single failed result leads straight to the
"No successful uploads to insert" error. -/
theorem no_successful_uploads_rejected_witness :
    ((validateInvoiceNumber "21000001" false).valid = true)
    ∧ insertOverstockData ⟨none, none⟩ none "t1" [] "21000001" "ABC123" "56012322"
        [demoResErr] none
      = .error "No successful uploads to insert" :=
  ⟨by decide,
   (no_successful_uploads_rejected "21000001" "ABC123" "56012322" [demoResErr]
      (by decide) (by decide) (by decide) (by decide)).1 ⟨none, none⟩ none "t1" [] none⟩

end ReturnsApp
